import Mathlib

/-
Verification of the job-board backend's role model, job-posting store,
application engine and registration flow, as a shallow embedding of the
Django/DRF code in `applications/`, `jobs/` and `authentication/`.

Persisted rows are Lean structures, the database is explicit lists of rows,
request handlers are functions from a database state and an authenticated
actor to an `Except` of an API error or a result, and asynchronous email
dispatch is a returned list of `Notif` values.
-/

namespace JobBoard

/-- User.role values; `other` stands for any string outside the three role
choices (the model's column default is the string `user`). -/
inductive Role
  | admin
  | employer
  | job_seeker
  | other
deriving DecidableEq, Repr

/-- JobApplication.STATUS_CHOICES from applications/models.py. -/
inductive Status
  | submitted
  | reviewed
  | accepted
  | rejected
deriving DecidableEq, Repr

/-- authentication/models.py User: id, role, unique email, name fields and
the email-verification flag (fields the verified claims touch). -/
structure User where
  id : Nat
  role : Role
  email : String
  first_name : String
  last_name : String
  is_email_verified : Bool
deriving DecidableEq, Repr

/-- jobs/models.py JobPosting: the employer foreign key is kept as the
owning user's id; `created_at` is a Nat timestamp used only for ordering. -/
structure JobPosting where
  id : Nat
  title : String
  employer : Nat
  is_active : Bool
  created_at : Nat
deriving DecidableEq, Repr

/-- applications/models.py JobApplication; the `job` and `job_seeker`
foreign keys are embedded as the related objects, matching how the Django
ORM exposes `obj.job.employer` and `obj.job_seeker.email`.  The table
carries `unique_together = (job, job_seeker)`. -/
structure JobApplication where
  id : Nat
  job : JobPosting
  job_seeker : User
  status : Status
deriving DecidableEq, Repr

/-- Asynchronous side effects dispatched by the views (celery tasks in
applications/tasks.py and authentication/tasks.py), recorded as values. -/
inductive Notif
  | applicationSubmitted (recipient title : String)
  | applicationAccepted (recipient title : String)
  | emailVerification (recipient : String) (token : Nat)
deriving DecidableEq, Repr

/-- Error responses a handler can produce.  `conflict` (HTTP 409) appears in
the specification's vocabulary and is included so claims about it can be
stated; `integrityError` is an uncaught database IntegrityError, which DRF
surfaces as a generic server failure rather than any structured API error. -/
inductive ApiError
  | validationError (msg : String)
  | forbidden (msg : String)
  | notFound
  | conflict
  | integrityError
deriving DecidableEq, Repr

/-- Permission classes from authentication/permissions.py reduce to a check
on the requesting user.  Only authenticated requests are modelled, so
IsAuthenticated is constantly true here. -/
abbrev PermCheck := User → Bool

def IsAuthenticated_check : PermCheck := fun _ => true

def IsAdminUser_check : PermCheck := fun u => u.role == Role.admin

def IsEmployer_check : PermCheck := fun u => u.role == Role.employer

def IsJobSeeker_check : PermCheck := fun u => u.role == Role.job_seeker

/-- Python `or` applied to two freshly constructed permission instances, as
in `IsEmployer() or IsAdminUser()` in JobApplicationDetail.get_permissions:
a class instance is truthy, so the expression evaluates to its first
operand and the second is discarded before any request is seen. -/
def pyOrPerm (a : PermCheck) (_ : PermCheck) : PermCheck := a

/-! ## Job posting store (jobs/views.py) -/

structure JobDb where
  jobs : List JobPosting
deriving DecidableEq, Repr

/-- Ordering used by `order_by` on descending `created_at`. -/
def newerFirst (a b : JobPosting) : Prop := b.created_at ≤ a.created_at

instance : DecidableRel newerFirst := fun _ _ => Nat.decLe _ _

instance : IsTotal JobPosting newerFirst :=
  ⟨fun a b => Nat.le_total b.created_at a.created_at⟩

instance : IsTrans JobPosting newerFirst :=
  ⟨fun _ _ _ h1 h2 => Nat.le_trans h2 h1⟩

/-- JobPostingListCreateView.get_queryset: employers get the postings they
own, everyone else gets the active postings, both newest first.  The
non-employer result is also stored in a TTL cache keyed by a fixed string;
the cache holds exactly this query's value, so the role-scoping claims are
stated against the underlying query. -/
def listJobs (db : JobDb) (actor : User) : List JobPosting :=
  if actor.role == Role.employer then
    (db.jobs.filter (fun j => j.employer == actor.id)).insertionSort newerFirst
  else
    (db.jobs.filter (fun j => j.is_active)).insertionSort newerFirst

/-- JobPostingDetailView.get_object for GET requests: the row is fetched by
id from the unfiltered table (`get_object_or_404(JobPosting, id=...)`), then
`check_object_permissions` runs the object-level permissions chosen by
get_permissions — `[IsAuthenticated, IsJobOwner]` when the requester's role
is employer, `[IsAuthenticated]` otherwise.  IsJobOwner compares the
requester with the posting's employer. -/
def getJob (db : JobDb) (actor : User) (jobId : Nat) : Except ApiError JobPosting :=
  match db.jobs.find? (fun j => j.id == jobId) with
  | none => Except.error ApiError.notFound
  | some job =>
    if actor.role == Role.employer && !(actor.id == job.employer) then
      Except.error (ApiError.forbidden "You do not have permission to perform this action.")
    else
      Except.ok job

/-- Stated from the specification for comparison with `getJob`:
canViewJob(role, actor, job) holds iff the job is active, or the actor is
the owning employer, or the actor is an admin. -/
def specCanViewJob (actor : User) (job : JobPosting) : Bool :=
  job.is_active || (actor.role == Role.employer && actor.id == job.employer)
    || actor.role == Role.admin

/-! ## Application engine (applications/views.py, applications/serializers.py) -/

structure AppDb where
  jobs : List JobPosting
  apps : List JobApplication
deriving DecidableEq, Repr

/-- JobApplicationListCreate.post with JobApplicationSerializer.
Steps in source order: the IsJobSeeker permission; the `job_id`
PrimaryKeyRelatedField, whose queryset is `JobPosting.objects.all()` with no
activity filter; `validate`, which only rejects applying to one's own job;
then `save(job_seeker=request.user)`.  The serializer's `status` field is
writable (it is not listed in `read_only_fields`), so a caller-supplied
status is honoured and only an omitted one falls back to the model default
`submitted`.  No duplicate check runs before the insert: the
`unique_together` index rejects a duplicate pair at the database, and the
view has no handler for that IntegrityError, so it escapes as
`integrityError`.  On success the view dispatches the submitted email to
`request.user.email`. -/
def submitApplication (db : AppDb) (actor : User) (jobId : Nat)
    (suppliedStatus : Option Status) :
    Except ApiError (AppDb × JobApplication × List Notif) :=
  if !(IsJobSeeker_check actor) then
    Except.error (ApiError.forbidden "You do not have permission to perform this action.")
  else
    match db.jobs.find? (fun j => j.id == jobId) with
    | none => Except.error (ApiError.validationError "Invalid pk - object does not exist.")
    | some job =>
      if job.employer == actor.id then
        Except.error (ApiError.validationError "You cannot apply to your own job.")
      else if db.apps.any (fun a => a.job.id == jobId && a.job_seeker.id == actor.id) then
        Except.error ApiError.integrityError
      else
        let app : JobApplication :=
          { id := db.apps.length, job := job, job_seeker := actor,
            status := suppliedStatus.getD Status.submitted }
        Except.ok ({ db with apps := db.apps ++ [app] }, app,
          [Notif.applicationSubmitted actor.email job.title])

/-- JobApplicationDetail.get_object: fetch by pk, then deny a job seeker on
another seeker's application and an employer on another employer's job;
every other combination (admins included) falls through to the object. -/
def appGetObject (db : AppDb) (actor : User) (appId : Nat) :
    Except ApiError JobApplication :=
  match db.apps.find? (fun a => a.id == appId) with
  | none => Except.error ApiError.notFound
  | some app =>
    if actor.role == Role.job_seeker && !(app.job_seeker.id == actor.id) then
      Except.error (ApiError.forbidden "You can only view your own applications.")
    else if actor.role == Role.employer && !(app.job.employer == actor.id) then
      Except.error (ApiError.forbidden "You can only view applications for your jobs.")
    else
      Except.ok app

/-- JobApplicationDetail.get_permissions for PUT:
`[IsAuthenticated(), IsEmployer() or IsAdminUser()]`. -/
def putPermissionChecks : List PermCheck :=
  [IsAuthenticated_check, pyOrPerm IsEmployer_check IsAdminUser_check]

def putPermissionOk (u : User) : Bool := putPermissionChecks.all (fun p => p u)

/-- JobApplicationDetail.get_permissions for PATCH falls through to the
final branch: `[IsAuthenticated()]` only. -/
def patchPermissionChecks : List PermCheck := [IsAuthenticated_check]

def patchPermissionOk (u : User) : Bool := patchPermissionChecks.all (fun p => p u)

/-- Replace the stored row for the updated application. -/
def storeApp (db : AppDb) (app : JobApplication) : AppDb :=
  { db with apps := db.apps.map (fun a => if a.id == app.id then app else a) }

/-- JobApplicationDetail.put: permission gate, get_object gate, then a
serializer save of the (possibly omitted) status.  The PUT handler contains
no notification dispatch. -/
def appDetailPut (db : AppDb) (actor : User) (appId : Nat)
    (newStatus : Option Status) :
    Except ApiError (AppDb × JobApplication × List Notif) :=
  if !(putPermissionOk actor) then
    Except.error (ApiError.forbidden "You do not have permission to perform this action.")
  else
    match appGetObject db actor appId with
    | Except.error e => Except.error e
    | Except.ok app =>
      let newApp := { app with status := newStatus.getD app.status }
      Except.ok (storeApp db newApp, newApp, [])

/-- JobApplicationDetail.patch: permission gate, get_object gate, save, and
the accepted email exactly when the old status was not `accepted` and the
saved one is.  The handler calls perform_update a second time after the
dispatch; the second save rewrites the same row, so the stored state is the
single updated row and the dispatch happens once. -/
def appDetailPatch (db : AppDb) (actor : User) (appId : Nat)
    (newStatus : Option Status) :
    Except ApiError (AppDb × JobApplication × List Notif) :=
  if !(patchPermissionOk actor) then
    Except.error (ApiError.forbidden "You do not have permission to perform this action.")
  else
    match appGetObject db actor appId with
    | Except.error e => Except.error e
    | Except.ok app =>
      let oldStatus := app.status
      let newApp := { app with status := newStatus.getD app.status }
      let notifs :=
        if oldStatus != Status.accepted && newApp.status == Status.accepted then
          [Notif.applicationAccepted app.job_seeker.email app.job.title]
        else []
      Except.ok (storeApp db newApp, newApp, notifs)

/-- Whether a PUT status update by `actor` on `app` passes both the
permission list and the get_object role checks. -/
def putStatusPermitted (actor : User) (app : JobApplication) : Bool :=
  putPermissionOk actor
    && !(actor.role == Role.job_seeker && !(app.job_seeker.id == actor.id))
    && !(actor.role == Role.employer && !(app.job.employer == actor.id))

/-- Whether a PATCH status update by `actor` on `app` passes both the
permission list and the get_object role checks. -/
def patchStatusPermitted (actor : User) (app : JobApplication) : Bool :=
  patchPermissionOk actor
    && !(actor.role == Role.job_seeker && !(app.job_seeker.id == actor.id))
    && !(actor.role == Role.employer && !(app.job.employer == actor.id))

/-- Stated from the specification for comparison with the code's update
gates: canMutateApplicationStatus(role, actor, app) holds iff the actor is
an admin or the employer owning the application's job. -/
def specCanMutateApplicationStatus (actor : User) (app : JobApplication) : Bool :=
  actor.role == Role.admin
    || (actor.role == Role.employer && actor.id == app.job.employer)

/-- The uniqueness invariant of applications/models.py: no two stored rows
share the (job, job_seeker) pair. -/
def uniquePairs (db : AppDb) : Prop :=
  db.apps.Pairwise
    (fun a b => ¬(a.job.id = b.job.id ∧ a.job_seeker.id = b.job_seeker.id))

/-! ## Identity and registration (authentication/serializers.py, views.py) -/

structure JobSeekerProfile where
  user : Nat
  skills : String
  experience : Int
deriving DecidableEq, Repr

structure EmployerProfile where
  user : Nat
  company_name : Option String
  website : Option String
deriving DecidableEq, Repr

structure VerificationToken where
  user : Nat
  token : Nat
deriving DecidableEq, Repr

structure AuthState where
  users : List User
  seekerProfiles : List JobSeekerProfile
  employerProfiles : List EmployerProfile
  verifTokens : List VerificationToken
deriving DecidableEq, Repr

/-- RegisterSerializer input: the role field is a ChoiceField over the three
roles with serializer-level default `job_seeker`, so `none` models a request
that omits the field. -/
structure RegInput where
  email : String
  password : String
  first_name : String
  last_name : String
  role : Option Role
deriving DecidableEq, Repr

def companySuffix : String := "\x27s Company"

/-- Company name assigned in the employer branch of the FIRST
`RegisterSerializer.create` definition.  That method is shadowed by the
second `create` defined in the same class body and is therefore dead code;
it is kept here as the documented intent the live code diverges from. -/
def firstCreateCompanyName (first_name : String) : Option String :=
  some (first_name ++ companySuffix)

/-- RegisterSerializer as executed: Python keeps only the second of the two
`create` definitions.  A duplicate email is rejected by the serializer's
unique-email validation; otherwise the user row is created with the
defaulted role, a JobSeekerProfile (empty skills, zero experience, the
column defaults) or an EmployerProfile created with NO arguments beyond the
user — so `company_name` stays at its null column default — or no profile
for an admin; a verification token is stored and the verification email
dispatched. -/
def register (st : AuthState) (inp : RegInput) (newId tokenVal : Nat) :
    Except ApiError (AuthState × User × List Notif) :=
  if st.users.any (fun u => u.email == inp.email) then
    Except.error (ApiError.validationError "user with this email already exists.")
  else
    let role := inp.role.getD Role.job_seeker
    let u : User :=
      { id := newId, role := role, email := inp.email,
        first_name := inp.first_name, last_name := inp.last_name,
        is_email_verified := false }
    let st1 :=
      match role with
      | Role.job_seeker =>
        { st with
          users := st.users ++ [u],
          seekerProfiles :=
            st.seekerProfiles ++ [({ user := newId, skills := "", experience := 0 } : JobSeekerProfile)] }
      | Role.employer =>
        { st with
          users := st.users ++ [u],
          employerProfiles :=
            st.employerProfiles ++ [({ user := newId, company_name := none, website := none } : EmployerProfile)] }
      | _ => { st with users := st.users ++ [u] }
    Except.ok ({ st1 with verifTokens := st1.verifTokens ++ [({ user := newId, token := tokenVal } : VerificationToken)] },
      u, [Notif.emailVerification inp.email tokenVal])

inductive VerifyOutcome
  | verifiedNow
  | alreadyVerified
  | invalidToken
deriving DecidableEq, Repr

/-- VerifyEmailView.get: look the token up; on a miss answer the invalid
token error; otherwise, if the token's user is not yet verified, mark them
verified and delete the token, and if they already are, answer success with
no write.  The inner user lookup models the token's foreign key; the
`none` case is unreachable under referential integrity. -/
def verifyEmail (st : AuthState) (tok : Nat) : AuthState × VerifyOutcome :=
  match st.verifTokens.find? (fun t => t.token == tok) with
  | none => (st, VerifyOutcome.invalidToken)
  | some vt =>
    match st.users.find? (fun u => u.id == vt.user) with
    | none => (st, VerifyOutcome.invalidToken)
    | some u =>
      if !u.is_email_verified then
        ({ st with
            users := st.users.map
              (fun x => if x.id == u.id then { x with is_email_verified := true } else x),
            verifTokens := st.verifTokens.filter (fun t => !(t.token == tok)) },
          VerifyOutcome.verifiedNow)
      else
        (st, VerifyOutcome.alreadyVerified)

/-- True exactly on a non-error handler result. -/
def isSuccess {α : Type} (r : Except ApiError α) : Bool :=
  match r with
  | Except.ok _ => true
  | Except.error _ => false

/-! ## Concrete fixtures used by witnesses and counterexamples -/

def uEmp1 : User :=
  { id := 1, role := Role.employer, email := "emp1@example.com",
    first_name := "Eve", last_name := "One", is_email_verified := true }

def uEmp2 : User :=
  { id := 2, role := Role.employer, email := "emp2@example.com",
    first_name := "Eli", last_name := "Two", is_email_verified := true }

def uSeeker : User :=
  { id := 3, role := Role.job_seeker, email := "seeker@example.com",
    first_name := "Sam", last_name := "Three", is_email_verified := true }

def uAdmin : User :=
  { id := 4, role := Role.admin, email := "admin@example.com",
    first_name := "Ada", last_name := "Four", is_email_verified := true }

def jobActive : JobPosting :=
  { id := 1, title := "Backend Developer", employer := 1, is_active := true,
    created_at := 10 }

def jobInactive : JobPosting :=
  { id := 2, title := "Archived Position", employer := 1, is_active := false,
    created_at := 5 }

def dbJobs : JobDb := { jobs := [jobActive, jobInactive] }

def appDb0 : AppDb := { jobs := [jobActive, jobInactive], apps := [] }

/-- The application created by uSeeker's first submission to jobActive. -/
def app0 : JobApplication :=
  { id := 0, job := jobActive, job_seeker := uSeeker, status := Status.submitted }

def appDb1 : AppDb := { jobs := [jobActive, jobInactive], apps := [app0] }

def nsSub : List Notif :=
  [Notif.applicationSubmitted "seeker@example.com" "Backend Developer"]

def app0acc : JobApplication := { app0 with status := Status.accepted }

def appDb1acc : AppDb := storeApp appDb1 app0acc

def nsAccLiteral : List Notif :=
  [Notif.applicationAccepted "seeker@example.com" "Backend Developer"]

/-- The application created when uSeeker submits with a caller-supplied
`accepted` status. -/
def appInjected : JobApplication :=
  { id := 0, job := jobActive, job_seeker := uSeeker, status := Status.accepted }

def appDbInjected : AppDb := { jobs := [jobActive, jobInactive], apps := [appInjected] }

def stEmpty : AuthState :=
  { users := [], seekerProfiles := [], employerProfiles := [], verifTokens := [] }

def inpAlice : RegInput :=
  { email := "alice@example.com", password := "pw", first_name := "Alice",
    last_name := "A", role := some Role.employer }

def uAlice : User :=
  { id := 10, role := Role.employer, email := "alice@example.com",
    first_name := "Alice", last_name := "A", is_email_verified := false }

def stAlice : AuthState :=
  { users := [uAlice], seekerProfiles := [],
    employerProfiles := [{ user := 10, company_name := none, website := none }],
    verifTokens := [{ user := 10, token := 99 }] }

def inpBob : RegInput :=
  { email := "bob@example.com", password := "pw", first_name := "Bob",
    last_name := "B", role := some Role.job_seeker }

def uBob : User :=
  { id := 11, role := Role.job_seeker, email := "bob@example.com",
    first_name := "Bob", last_name := "B", is_email_verified := false }

def stBob : AuthState :=
  { users := [uBob],
    seekerProfiles := [{ user := 11, skills := "", experience := 0 }],
    employerProfiles := [], verifTokens := [{ user := 11, token := 98 }] }

def inpCarol : RegInput :=
  { email := "carol@example.com", password := "pw", first_name := "Carol",
    last_name := "C", role := some Role.admin }

def uCarol : User :=
  { id := 12, role := Role.admin, email := "carol@example.com",
    first_name := "Carol", last_name := "C", is_email_verified := false }

def stCarol : AuthState :=
  { users := [uCarol], seekerProfiles := [], employerProfiles := [],
    verifTokens := [{ user := 12, token := 97 }] }

def inpDan : RegInput :=
  { email := "dan@example.com", password := "pw", first_name := "Dan",
    last_name := "D", role := none }

def uDan : User :=
  { id := 13, role := Role.job_seeker, email := "dan@example.com",
    first_name := "Dan", last_name := "D", is_email_verified := false }

def stDan : AuthState :=
  { users := [uDan],
    seekerProfiles := [{ user := 13, skills := "", experience := 0 }],
    employerProfiles := [], verifTokens := [{ user := 13, token := 88 }] }

/-- A state whose only user is verified and still holds a token. -/
def uVer : User :=
  { id := 20, role := Role.job_seeker, email := "ver@example.com",
    first_name := "Vera", last_name := "V", is_email_verified := true }

def stVer : AuthState :=
  { users := [uVer], seekerProfiles := [], employerProfiles := [],
    verifTokens := [{ user := 20, token := 5 }] }

/-- A state whose only user is not yet verified and holds a token. -/
def uUnv : User :=
  { id := 21, role := Role.job_seeker, email := "unv@example.com",
    first_name := "Uma", last_name := "U", is_email_verified := false }

def stUnv : AuthState :=
  { users := [uUnv], seekerProfiles := [], employerProfiles := [],
    verifTokens := [{ user := 21, token := 6 }] }

/-! ## Claim theorems -/

/-- C1 counterexample: a first submission by uSeeker to job 1 succeeds; the
second submission for the same (job, seeker) pair fails, but with the
uncaught persistence-layer IntegrityError, not with Conflict as the claim
states. -/
theorem C1_counterexample :
    submitApplication appDb0 uSeeker 1 none = Except.ok (appDb1, app0, nsSub) ∧
    submitApplication appDb1 uSeeker 1 none = Except.error ApiError.integrityError ∧
    ApiError.integrityError ≠ ApiError.conflict := by
  refine ⟨rfl, rfl, ?_⟩
  decide

/-- C2: the code contradicts the spec predicate canMutateApplicationStatus.
The PUT permission list `IsEmployer() or IsAdminUser()` evaluates to its
first operand, so an admin is denied a PUT status update on any
application; and PATCH is gated by IsAuthenticated only, so the applicant
job seeker can update (and even accept) their own application. -/
theorem C2_status_update_gate_mismatch :
    specCanMutateApplicationStatus uAdmin app0 = true ∧
    putStatusPermitted uAdmin app0 = false ∧
    appDetailPut appDb1 uAdmin 0 (some Status.accepted) =
      Except.error (ApiError.forbidden "You do not have permission to perform this action.") ∧
    specCanMutateApplicationStatus uSeeker app0 = false ∧
    patchStatusPermitted uSeeker app0 = true ∧
    appDetailPatch appDb1 uSeeker 0 (some Status.accepted) =
      Except.ok (appDb1acc, app0acc, nsAccLiteral) := by
  refine ⟨rfl, rfl, rfl, rfl, rfl, rfl⟩

/-- C3: the code contradicts the spec's canViewJob / NotFound policy.  A
job seeker retrieves an inactive posting successfully (get_object fetches
from the unfiltered table and non-employers face no object check), and an
employer who does not own an active posting is denied with Forbidden, not
NotFound. -/
theorem C3_job_visibility_mismatch :
    getJob dbJobs uSeeker 2 = Except.ok jobInactive ∧
    specCanViewJob uSeeker jobInactive = false ∧
    getJob dbJobs uEmp2 1 =
      Except.error (ApiError.forbidden "You do not have permission to perform this action.") ∧
    specCanViewJob uEmp2 jobActive = true := by
  refine ⟨rfl, rfl, rfl, rfl⟩

/-- C4 counterexample: a permitted PUT by the owning employer moving the
application from submitted to accepted dispatches no notification at all,
contradicting the claim that every permitted non-accepted-to-accepted
update fires exactly one. -/
theorem C4_counterexample :
    app0.status = Status.submitted ∧
    appDetailPut appDb1 uEmp1 0 (some Status.accepted) =
      Except.ok (appDb1acc, app0acc, []) ∧
    app0acc.status = Status.accepted := by
  refine ⟨rfl, rfl, rfl⟩

/-- C5 counterexample: the serializer's status field is writable, so a
caller-supplied `accepted` status on creation is persisted as given, not
forced to `submitted`. -/
theorem C5_counterexample :
    submitApplication appDb0 uSeeker 1 (some Status.accepted) =
      Except.ok (appDbInjected, appInjected, nsSub) ∧
    appInjected.status ≠ Status.submitted := by
  refine ⟨rfl, ?_⟩
  decide

/-- C8: the second RegisterSerializer.create shadows the first, so the
executed employer branch creates the profile without the company name the
dead first branch (and the spec) derive from the user's first name; the
job-seeker branch (empty skills, zero experience) and the admin branch (no
profile row) behave as claimed. -/
theorem C8_employer_company_name_dropped :
    register stEmpty inpAlice 10 99 =
      Except.ok (stAlice, uAlice, [Notif.emailVerification "alice@example.com" 99]) ∧
    stAlice.employerProfiles.map (fun p => p.company_name) = [none] ∧
    (none : Option String) ≠ firstCreateCompanyName "Alice" ∧
    register stEmpty inpBob 11 98 =
      Except.ok (stBob, uBob, [Notif.emailVerification "bob@example.com" 98]) ∧
    stBob.seekerProfiles = [{ user := 11, skills := "", experience := 0 }] ∧
    register stEmpty inpCarol 12 97 =
      Except.ok (stCarol, uCarol, [Notif.emailVerification "carol@example.com" 97]) ∧
    stCarol.seekerProfiles = [] ∧ stCarol.employerProfiles = [] := by
  refine ⟨rfl, rfl, ?_, rfl, rfl, rfl, rfl, rfl⟩
  decide

/-- C6: listJobs shows a job seeker only active postings, and shows an
employer exactly the postings they own (active or not), newest first. -/
theorem C6_listJobs_role_scope (db : JobDb) (actor : User) (j : JobPosting) :
    (actor.role = Role.job_seeker → j ∈ listJobs db actor → j.is_active = true) ∧
    (actor.role = Role.employer →
      ((j ∈ listJobs db actor ↔ (j ∈ db.jobs ∧ j.employer = actor.id)) ∧
        (listJobs db actor).Sorted newerFirst)) := by
  constructor
  · intro hrole hj
    have hdb : listJobs db actor =
        (db.jobs.filter (fun x => x.is_active)).insertionSort newerFirst := by
      unfold listJobs
      rw [hrole]
      rfl
    rw [hdb, List.mem_insertionSort, List.mem_filter] at hj
    exact hj.2
  · intro hrole
    have hdb : listJobs db actor =
        (db.jobs.filter (fun x => x.employer == actor.id)).insertionSort newerFirst := by
      unfold listJobs
      rw [hrole]
      rfl
    constructor
    · rw [hdb, List.mem_insertionSort, List.mem_filter]
      simp only [beq_iff_eq]
    · rw [hdb]
      exact List.sorted_insertionSort newerFirst _

/-- C9: submitApplication succeeds given only that the actor is a job
seeker, the job exists, the actor is not its employer, and no prior
application for the pair exists — the job's is_active flag is never
consulted. -/
theorem C9_no_active_precondition (db : AppDb) (actor : User) (jobId : Nat)
    (job : JobPosting)
    (hrole : actor.role = Role.job_seeker)
    (hfind : db.jobs.find? (fun j => j.id == jobId) = some job)
    (hown : job.employer ≠ actor.id)
    (hdup : db.apps.any (fun a => a.job.id == jobId && a.job_seeker.id == actor.id) = false) :
    isSuccess (submitApplication db actor jobId none) = true := by
  unfold submitApplication IsJobSeeker_check
  rw [hrole, hfind]
  simp [isSuccess, hdup, beq_iff_eq, hown]

/-- C5 (amended): every successful submission records the requester as the
job seeker and dispatches the submitted notification to their email; the
persisted status is `submitted` when the caller omits the field. -/
theorem C5_submit_defaults_and_notifies (db db' : AppDb) (actor : User)
    (jobId : Nat) (s : Option Status) (app : JobApplication) (ns : List Notif)
    (h : submitApplication db actor jobId s = Except.ok (db', app, ns)) :
    app.job_seeker = actor ∧
    ns = [Notif.applicationSubmitted actor.email app.job.title] ∧
    (s = none → app.status = Status.submitted) := by
  unfold submitApplication at h
  split at h
  · simp at h
  · split at h
    · simp at h
    · split at h
      · simp at h
      · split at h
        · simp at h
        · simp only [Except.ok.injEq, Prod.mk.injEq] at h
          obtain ⟨hdb, happ, hns⟩ := h
          subst happ
          subst hns
          refine ⟨rfl, rfl, ?_⟩
          intro hs
          subst hs
          rfl

/-- C10: when the request omits the role field, the serializer default
makes the new user a job_seeker and a JobSeekerProfile row (empty skills,
zero experience) is created for them. -/
theorem C10_register_role_defaults (st st' : AuthState) (inp : RegInput)
    (newId tokenVal : Nat) (u : User) (ns : List Notif)
    (hrole : inp.role = none)
    (hreg : register st inp newId tokenVal = Except.ok (st', u, ns)) :
    u.role = Role.job_seeker ∧ u.id = newId ∧
    ({ user := newId, skills := "", experience := 0 } : JobSeekerProfile) ∈
      st'.seekerProfiles := by
  unfold register at hreg
  rw [hrole] at hreg
  split at hreg
  · simp at hreg
  · simp only [Option.getD] at hreg
    simp only [Except.ok.injEq, Prod.mk.injEq] at hreg
    obtain ⟨hst, hu, hns⟩ := hreg
    subst hst
    subst hu
    refine ⟨rfl, rfl, ?_⟩
    simp [List.mem_append]

/-- C1 (amended): the unique (job, job_seeker) index keeps at most one
application per pair — a successful submission preserves pair-uniqueness —
and a repeat submission for an existing pair fails, but with the uncaught
persistence-layer IntegrityError rather than Conflict. -/
theorem C1_pair_uniqueness_and_integrity_error (db db' : AppDb) (actor : User)
    (jobId : Nat) (s : Option Status) (app : JobApplication) (ns : List Notif)
    (job : JobPosting) :
    (uniquePairs db → submitApplication db actor jobId s = Except.ok (db', app, ns) →
      uniquePairs db') ∧
    (actor.role = Role.job_seeker →
      db.jobs.find? (fun j => j.id == jobId) = some job →
      job.employer ≠ actor.id →
      db.apps.any (fun a => a.job.id == jobId && a.job_seeker.id == actor.id) = true →
      submitApplication db actor jobId s = Except.error ApiError.integrityError) := by
  constructor
  · intro huniq h
    unfold submitApplication at h
    split at h
    · simp at h
    · split at h
      · simp at h
      · rename_i job2 hfind2
        split at h
        · simp at h
        · split at h
          · simp at h
          · rename_i hany
            simp only [Except.ok.injEq, Prod.mk.injEq] at h
            obtain ⟨hdb, happ, hns⟩ := h
            subst hdb
            unfold uniquePairs at huniq ⊢
            rw [List.pairwise_append]
            refine ⟨huniq, by simp, ?_⟩
            intro a ha b hb
            rw [List.mem_singleton] at hb
            subst hb
            rintro ⟨hjid, hsid⟩
            apply hany
            rw [List.any_eq_true]
            refine ⟨a, ha, ?_⟩
            have hj2 : job2.id = jobId := by
              have := List.find?_some hfind2
              simpa using this
            have hjid2 : a.job.id = jobId := by
              rw [hjid]
              exact hj2
            simp only [Bool.and_eq_true, beq_iff_eq]
            exact ⟨hjid2, hsid⟩
  · intro hrole hfind hne hdup
    unfold submitApplication IsJobSeeker_check
    rw [hrole, hfind]
    simp [hdup, beq_iff_eq, hne]

/-- C4 (amended): for a status update that passes the permission and
get_object gates, the accepted notification is dispatched exactly once per
transition into `accepted` when the update arrives via PATCH, while a PUT
update never dispatches any notification. -/
theorem C4_accepted_notification_patch_only (db : AppDb) (actor : User)
    (appId : Nat) (newStatus : Option Status) (app : JobApplication)
    (h : appGetObject db actor appId = Except.ok app) :
    (∀ db2 app2 ns2,
      appDetailPut db actor appId newStatus = Except.ok (db2, app2, ns2) →
        ns2 = []) ∧
    (∀ db2 app2 ns2,
      appDetailPatch db actor appId newStatus = Except.ok (db2, app2, ns2) →
        ((app.status ≠ Status.accepted ∧ app2.status = Status.accepted →
            ns2 = [Notif.applicationAccepted app.job_seeker.email app.job.title]) ∧
          (app.status = Status.accepted ∨ app2.status ≠ Status.accepted →
            ns2 = []))) := by
  constructor
  · intro db2 app2 ns2 hput
    unfold appDetailPut at hput
    split at hput
    · simp at hput
    · rw [h] at hput
      simp only [Except.ok.injEq, Prod.mk.injEq] at hput
      exact hput.2.2.symm
  · intro db2 app2 ns2 hpatch
    unfold appDetailPatch at hpatch
    split at hpatch
    · rename_i hperm
      simp [patchPermissionOk, patchPermissionChecks, IsAuthenticated_check] at hperm
    · rw [h] at hpatch
      simp only [Except.ok.injEq, Prod.mk.injEq] at hpatch
      obtain ⟨hdb2, happ2, hns2⟩ := hpatch
      subst happ2
      subst hns2
      constructor
      · rintro ⟨hold, hnew⟩
        rw [if_pos]
        simp only [Bool.and_eq_true, bne_iff_ne, ne_eq, beq_iff_eq]
        exact ⟨hold, hnew⟩
      · intro hcase
        rw [if_neg]
        simp only [Bool.and_eq_true, bne_iff_ne, ne_eq, beq_iff_eq, not_and]
        intro hold
        rcases hcase with hacc | hnacc
        · exact absurd hacc hold
        · exact hnacc

/-- Helper: mapping the verified-flag update over the user table commutes
with looking a user up by id, because the update preserves ids. -/
theorem find_map_verified_update (l : List User) (uid tid : Nat) (u : User)
    (h : l.find? (fun x => x.id == uid) = some u) :
    (l.map (fun x => if x.id == tid then { x with is_email_verified := true } else x)).find?
        (fun x => x.id == uid) =
      some (if u.id == tid then { u with is_email_verified := true } else u) := by
  induction l with
  | nil => simp at h
  | cons a l ih =>
    rw [List.map_cons]
    by_cases ha : (a.id == uid) = true
    · have e1 : (a :: l).find? (fun x => x.id == uid) = some a :=
        List.find?_cons_of_pos _ ha
      rw [e1] at h
      have hpm : ((fun x => x.id == uid)
          (if a.id == tid then { a with is_email_verified := true } else a)) = true := by
        by_cases hat : (a.id == tid) = true
        · rw [if_pos hat]
          exact ha
        · rw [if_neg hat]
          exact ha
      have e2 : ((if a.id == tid then { a with is_email_verified := true } else a) ::
            l.map (fun x => if x.id == tid then { x with is_email_verified := true } else x)).find?
            (fun x => x.id == uid) =
          some (if a.id == tid then { a with is_email_verified := true } else a) :=
        List.find?_cons_of_pos _ hpm
      rw [e2]
      injection h with hau
      subst hau
      rfl
    · have hpm : ¬ ((fun x => x.id == uid)
          (if a.id == tid then { a with is_email_verified := true } else a)) = true := by
        by_cases hat : (a.id == tid) = true
        · rw [if_pos hat]
          exact ha
        · rw [if_neg hat]
          exact ha
      have e2 : ((if a.id == tid then { a with is_email_verified := true } else a) ::
            l.map (fun x => if x.id == tid then { x with is_email_verified := true } else x)).find?
            (fun x => x.id == uid) =
          (l.map (fun x => if x.id == tid then { x with is_email_verified := true } else x)).find?
            (fun x => x.id == uid) :=
        List.find?_cons_of_neg _ hpm
      have e1 : (a :: l).find? (fun x => x.id == uid) = l.find? (fun x => x.id == uid) :=
        List.find?_cons_of_neg _ ha
      rw [e1] at h
      rw [e2]
      exact ih h

/-- C7: verifyEmail behaves idempotently — when the token's user is already
verified it answers success with the state untouched, and a first call on
an unverified user answers success, marks exactly that user verified and
consumes (deletes) the token. -/
theorem C7_verify_email_idempotent (st : AuthState) (tok : Nat)
    (vt : VerificationToken) (u : User)
    (hvt : st.verifTokens.find? (fun t => t.token == tok) = some vt)
    (hu : st.users.find? (fun x => x.id == vt.user) = some u) :
    (u.is_email_verified = true → verifyEmail st tok = (st, VerifyOutcome.alreadyVerified)) ∧
    (u.is_email_verified = false →
      (verifyEmail st tok).2 = VerifyOutcome.verifiedNow ∧
      (verifyEmail st tok).1.users.find? (fun x => x.id == vt.user) =
        some { u with is_email_verified := true } ∧
      (verifyEmail st tok).1.verifTokens.find? (fun t => t.token == tok) = none) := by
  unfold verifyEmail
  simp only [hvt, hu]
  constructor
  · intro hv
    rw [hv]
    rfl
  · intro hv
    rw [hv]
    have hif : (!false) = true := rfl
    rw [if_pos hif]
    refine ⟨rfl, ?_, ?_⟩
    · dsimp only
      rw [find_map_verified_update st.users vt.user u.id u hu]
      rw [if_pos]
      exact beq_self_eq_true u.id
    · dsimp only
      rw [List.find?_eq_none]
      intro x hx
      have hxf := (List.mem_filter.mp hx).2
      simp only [Bool.not_eq_true'] at hxf
      rw [hxf]
      exact Bool.false_ne_true

/-- C1 witness: the one-application database is pair-unique, and the repeat
submission on it hits the integrity error. -/
theorem C1_witness :
    uniquePairs appDb1 ∧
    submitApplication appDb1 uSeeker 1 none = Except.error ApiError.integrityError := by
  constructor
  · exact (C1_pair_uniqueness_and_integrity_error appDb0 appDb1 uSeeker 1 none app0 nsSub
      jobActive).1 List.Pairwise.nil rfl
  · exact (C1_pair_uniqueness_and_integrity_error appDb1 appDb1 uSeeker 1 none app0 nsSub
      jobActive).2 rfl rfl (by decide) rfl

/-- C4 witness: the owning employer's PATCH from submitted to accepted
dispatches exactly the accepted notification. -/
theorem C4_witness :
    app0.status ≠ Status.accepted ∧
    nsAccLiteral = [Notif.applicationAccepted app0.job_seeker.email app0.job.title] := by
  constructor
  · decide
  · exact ((C4_accepted_notification_patch_only appDb1 uEmp1 0 (some Status.accepted)
      app0 rfl).2 appDb1acc app0acc nsAccLiteral rfl).1 ⟨by decide, rfl⟩

/-- C5 witness: uSeeker's first submission records them as the applicant
with the default submitted status. -/
theorem C5_witness :
    app0.job_seeker = uSeeker ∧ app0.status = Status.submitted := by
  have h := C5_submit_defaults_and_notifies appDb0 appDb1 uSeeker 1 none app0 nsSub rfl
  exact ⟨h.1, h.2.2 rfl⟩

/-- C6 witness: a concrete active job is active in the seeker listing, and
the employer listing of the fixture database is exactly their postings,
sorted newest first. -/
theorem C6_witness :
    jobActive.is_active = true ∧
    (jobInactive ∈ listJobs dbJobs uEmp1 ↔
      (jobInactive ∈ dbJobs.jobs ∧ jobInactive.employer = uEmp1.id)) ∧
    (listJobs dbJobs uEmp1).Sorted newerFirst := by
  refine ⟨?_, ?_, ?_⟩
  · exact (C6_listJobs_role_scope dbJobs uSeeker jobActive).1 rfl (by decide)
  · exact ((C6_listJobs_role_scope dbJobs uEmp1 jobInactive).2 rfl).1
  · exact ((C6_listJobs_role_scope dbJobs uEmp1 jobInactive).2 rfl).2

/-- C7 witness: on the verified-user state the call answers success without
mutation; on the unverified-user state it verifies and consumes the
token. -/
theorem C7_witness :
    verifyEmail stVer 5 = (stVer, VerifyOutcome.alreadyVerified) ∧
    (verifyEmail stUnv 6).2 = VerifyOutcome.verifiedNow ∧
    (verifyEmail stUnv 6).1.verifTokens.find? (fun t => t.token == 6) = none := by
  refine ⟨?_, ?_, ?_⟩
  · exact (C7_verify_email_idempotent stVer 5 ⟨20, 5⟩ uVer rfl rfl).1 rfl
  · exact ((C7_verify_email_idempotent stUnv 6 ⟨21, 6⟩ uUnv rfl rfl).2 rfl).1
  · exact ((C7_verify_email_idempotent stUnv 6 ⟨21, 6⟩ uUnv rfl rfl).2 rfl).2.2

/-- C9 witness: submission to the inactive fixture job succeeds. -/
theorem C9_witness :
    jobInactive.is_active = false ∧
    isSuccess (submitApplication appDb0 uSeeker 2 none) = true := by
  refine ⟨rfl, ?_⟩
  exact C9_no_active_precondition appDb0 uSeeker 2 jobInactive rfl rfl (by decide) rfl

/-- C10 witness: registering Dan with no role yields a job_seeker user with
a seeker profile row. -/
theorem C10_witness :
    uDan.role = Role.job_seeker ∧ uDan.id = 13 ∧
    ({ user := 13, skills := "", experience := 0 } : JobSeekerProfile) ∈
      stDan.seekerProfiles :=
  C10_register_role_defaults stEmpty stDan inpDan 13 88 uDan
    [Notif.emailVerification "dan@example.com" 88] rfl rfl

end JobBoard
